import Mathlib

/-!
# Verification of the Dev_Suite agent-coordination core

Shallow embedding of the repository's coordination substrate:

* `CapabilityRegistry` (src/AgentRegistry/agentregistry.py) — an in-memory
  dict from agent name to a record of capabilities and last heartbeat.
  Python's `dict` is modelled by an association list updated in place
  (`dictSet` replaces the value at the first occurrence of the key and
  appends otherwise, which is exactly CPython's insertion-order behaviour),
  and `time.time()` by an integer timestamp supplied by the caller.

* `BaseAgent.send_message` / `listen_for_messages` (src/AgentService/baseservice.py)
  — envelope construction and the publish/consume loop.

* `DeveloperAgent.process_message` (src/AgentService/developeragent.py) — the
  multi-attempt self-correction loop, with the external generation/validation
  functions supplied as oracles indexed by invocation count.

* `ManagerAgent.process_message` (src/AgentService/manageragent.py) — the
  controller decision loop, with the LLM decision oracle and the file-server
  contents supplied as oracles.

JSON values flowing through message payloads are modelled by `PyVal`.
-/

namespace DevSuite

/-- A JSON-ish Python value, as carried in message payloads. Floats do not
occur in any property proved here; numeric payload fields are modelled by
integers. -/
inductive PyVal where
  | str : String → PyVal
  | num : Int → PyVal
  | bool : Bool → PyVal
  | none : PyVal
  | list : List PyVal → PyVal
  | dict : List (String × PyVal) → PyVal
deriving Repr

/-- Python truthiness (`bool(v)`), for `if payload.get("prompt"):`-style tests. -/
def truthy : PyVal → Bool
  | .str s => !decide (s = "")
  | .num n => !decide (n = (0 : Int))
  | .bool b => b
  | .none => false
  | .list l => !l.isEmpty
  | .dict d => !d.isEmpty

/-- A Python `dict` with string keys. -/
abbrev Dict := List (String × PyVal)

/-- `d[k]` lookup: the value at the first binding of `k` (association lists
built by `dictSet` have at most one binding per key). -/
def dictGet {α : Type} : List (String × α) → String → Option α
  | [], _ => Option.none
  | (k, v) :: rest, key => if k = key then some v else dictGet rest key

/-- `d[k] = v` assignment: replace the value at an existing binding of `k`,
else append a new binding — CPython dict-update semantics. -/
def dictSet {α : Type} : List (String × α) → String → α → List (String × α)
  | [], key, v => [(key, v)]
  | (k, w) :: rest, key, v =>
      if k = key then (key, v) :: rest else (k, w) :: dictSet rest key v

/-- `del d[k]`: drop the binding of `k` if present. -/
def dictRemove {α : Type} : List (String × α) → String → List (String × α)
  | [], _ => []
  | (k, v) :: rest, key => if k = key then rest else (k, v) :: dictRemove rest key

/-- `d.get(k, default)`. -/
def dget (d : Dict) (k : String) (default : PyVal) : PyVal :=
  (dictGet d k).getD default

/-!
## Capability Registry — src/AgentRegistry/agentregistry.py, class CapabilityRegistry

Every method of the class runs under one lock; the lock serialises the calls,
so the sequential functions below are the whole behaviour. `time.time()` is
modelled by an `Int` argument `now` provided at each mutating call.
-/

/-- The per-agent record stored by the registry:
`{"capabilities": [...], "last_heartbeat": <timestamp>}` (agentregistry.py:18-21). -/
structure AgentRecord where
  capabilities : List String
  last_heartbeat : Int
deriving Repr, DecidableEq

/-- The registry's backing store `self._registry`. -/
abbrev Registry := List (String × AgentRecord)

/-- `register` (agentregistry.py:15-21): unconditionally overwrite the record
for `agent_name` with the given capabilities and the current time. -/
def register (reg : Registry) (agent_name : String) (capabilities : List String)
    (now : Int) : Registry :=
  dictSet reg agent_name ⟨capabilities, now⟩

/-- `heartbeat` (agentregistry.py:23-27): refresh `last_heartbeat` when the
agent is present; do nothing when it is absent. -/
def heartbeat (reg : Registry) (agent_name : String) (now : Int) : Registry :=
  if (dictGet reg agent_name).isSome then
    reg.map (fun p => if p.1 = agent_name then (p.1, { p.2 with last_heartbeat := now }) else p)
  else
    reg

/-- `unregister` (agentregistry.py:29-33). -/
def unregister (reg : Registry) (agent_name : String) : Registry :=
  if (dictGet reg agent_name).isSome then dictRemove reg agent_name else reg

/-- `get_capabilities` (agentregistry.py:35-39): the stored list, or `[]`
for an unknown agent. -/
def get_capabilities (reg : Registry) (agent_name : String) : List String :=
  match dictGet reg agent_name with
  | some r => r.capabilities
  | Option.none => []

/-- `list_agents` (agentregistry.py:41-44): names with capabilities,
timestamps dropped. -/
def list_agents (reg : Registry) : List (String × List String) :=
  reg.map (fun p => (p.1, p.2.capabilities))

/-- `check_agent_health` (agentregistry.py:46-56): the names whose last
heartbeat is strictly older than `timeout` seconds. The method only reads the
map; returning the (unchanged) registry as the second component records that
no mutation happens. -/
def check_agent_health (reg : Registry) (timeout : Int) (now : Int) :
    List String × Registry :=
  ((reg.filter (fun p => decide (timeout < now - p.2.last_heartbeat))).map Prod.fst, reg)

/-! ### Dictionary lemmas -/

theorem dictGet_dictSet_self {α : Type} (l : List (String × α)) (k : String) (v : α) :
    dictGet (dictSet l k v) k = some v := by
  induction l with
  | nil => simp [dictSet, dictGet]
  | cons hd tl ih =>
      obtain ⟨k', w⟩ := hd
      by_cases h : k' = k
      · subst h; simp [dictSet, dictGet]
      · simp [dictSet, dictGet, h, ih]

theorem dictGet_eq_none_of_not_mem {α : Type} {l : List (String × α)} {k : String}
    (h : k ∉ l.map Prod.fst) : dictGet l k = Option.none := by
  induction l with
  | nil => rfl
  | cons hd tl ih =>
      simp only [List.map_cons, List.mem_cons] at h
      push_neg at h
      simpa [dictGet, Ne.symm h.1] using ih h.2

theorem dictGet_isSome_of_mem_map_fst {α : Type} {l : List (String × α)} {k : String}
    (h : k ∈ l.map Prod.fst) : (dictGet l k).isSome := by
  induction l with
  | nil => simp at h
  | cons hd tl ih =>
      obtain ⟨k', w⟩ := hd
      by_cases hk : k' = k
      · simp [dictGet, hk]
      · simp only [List.map_cons, List.mem_cons] at h
        rcases h with h1 | h2
        · exact absurd h1.symm hk
        · simpa [dictGet, hk] using ih h2

/-- In a list whose keys are distinct, a key determines its value. -/
theorem value_eq_of_keys_nodup {α : Type} :
    ∀ {l : List (String × α)}, (l.map Prod.fst).Nodup →
      ∀ {k : String} {v w : α}, (k, v) ∈ l → (k, w) ∈ l → v = w := by
  intro l
  induction l with
  | nil => intro _ k v w hv; simp at hv
  | cons hd tl ih =>
      obtain ⟨k0, u⟩ := hd
      intro hnd k v w hv hw
      simp only [List.map_cons, List.nodup_cons] at hnd
      rcases List.mem_cons.mp hv with hv1 | hv2 <;>
        rcases List.mem_cons.mp hw with hw1 | hw2
      · exact congrArg Prod.snd (hv1.trans hw1.symm)
      · exfalso; apply hnd.1
        have hk : k = k0 := congrArg Prod.fst hv1
        rw [← hk]
        exact List.mem_map_of_mem Prod.fst hw2
      · exfalso; apply hnd.1
        have hk : k = k0 := congrArg Prod.fst hw1
        rw [← hk]
        exact List.mem_map_of_mem Prod.fst hv2
      · exact ih hnd.2 hv2 hw2

/-! ### Registry claims -/

/-- **C6.** Registering an agent and immediately reading its capabilities
returns exactly the registered set, and re-registering with a different set
fully replaces the previous one (last-write-wins, no union or merge). -/
theorem register_get_capabilities_roundtrip
    (reg : Registry) (A : String) (caps caps' : List String) (t t' : Int) :
    get_capabilities (register reg A caps t) A = caps ∧
    get_capabilities (register (register reg A caps t) A caps' t') A = caps' := by
  constructor <;> simp [get_capabilities, register, dictGet_dictSet_self]

/-- **C7.** `check_agent_health t` leaves the registry unchanged and returns
exactly the registered names whose heartbeat is strictly older than `t`
seconds: a name is in the result iff it carries a record with
`now - last_heartbeat > t`, and (keys being distinct, as dict storage
guarantees) an agent whose record satisfies `now - last_heartbeat ≤ t`
never appears. -/
theorem check_agent_health_spec (reg : Registry) (t now : Int)
    (hnodup : (reg.map Prod.fst).Nodup) :
    (check_agent_health reg t now).2 = reg ∧
    (∀ A : String, A ∈ (check_agent_health reg t now).1 ↔
      ∃ rec : AgentRecord, (A, rec) ∈ reg ∧ t < now - rec.last_heartbeat) ∧
    (∀ (B : String) (rec : AgentRecord), (B, rec) ∈ reg →
      now - rec.last_heartbeat ≤ t → B ∉ (check_agent_health reg t now).1) := by
  refine ⟨rfl, ?_, ?_⟩
  · intro A
    simp only [check_agent_health, List.mem_map, List.mem_filter]
    constructor
    · rintro ⟨⟨name, rec⟩, ⟨hmem, hstale⟩, hfst⟩
      exact ⟨rec, by simpa [← hfst] using hmem, by simpa using hstale⟩
    · rintro ⟨rec, hmem, hstale⟩
      exact ⟨(A, rec), ⟨hmem, by simpa using hstale⟩, rfl⟩
  · intro B rec hmem hfresh hin
    simp only [check_agent_health, List.mem_map, List.mem_filter] at hin
    obtain ⟨⟨name, rec'⟩, ⟨hmem', hstale⟩, hfst⟩ := hin
    simp only at hfst
    subst hfst
    have : rec = rec' := value_eq_of_keys_nodup hnodup hmem hmem'
    subst this
    simp only [decide_eq_true_eq] at hstale
    omega

/-- Witness for C7 at a concrete registry: agent `A` (heartbeat at 0, stale)
is reported at `now = 100`, `t = 60`; agent `B` (heartbeat at 90, fresh)
is not; the registry is returned unchanged. -/
theorem check_agent_health_spec_witness :
    ((([("A", (⟨["build"], 0⟩ : AgentRecord)), ("B", ⟨["test"], 90⟩)] : Registry).map
        Prod.fst).Nodup) ∧
    (check_agent_health [("A", ⟨["build"], 0⟩), ("B", ⟨["test"], 90⟩)] 60 100).2 =
      [("A", ⟨["build"], 0⟩), ("B", ⟨["test"], 90⟩)] ∧
    ("A" ∈ (check_agent_health [("A", ⟨["build"], 0⟩), ("B", ⟨["test"], 90⟩)] 60 100).1 ↔
      ∃ rec : AgentRecord,
        ("A", rec) ∈ ([("A", ⟨["build"], 0⟩), ("B", ⟨["test"], 90⟩)] : Registry) ∧
        (60 : Int) < 100 - rec.last_heartbeat) ∧
    ¬ "B" ∈ (check_agent_health [("A", ⟨["build"], 0⟩), ("B", ⟨["test"], 90⟩)] 60 100).1 := by
  have hnd : ((([("A", (⟨["build"], 0⟩ : AgentRecord)), ("B", ⟨["test"], 90⟩)] : Registry).map
      Prod.fst).Nodup) := by decide
  obtain ⟨h1, h2, h3⟩ := check_agent_health_spec
    [("A", ⟨["build"], 0⟩), ("B", ⟨["test"], 90⟩)] 60 100 hnd
  exact ⟨hnd, h1, h2 "A", h3 "B" ⟨["test"], 90⟩ (by simp) (by decide)⟩

/-- **C8.** A heartbeat for an unregistered agent is a no-op: the registry is
unchanged and the agent is still absent from `list_agents`. -/
theorem heartbeat_unregistered_noop (reg : Registry) (A : String) (now : Int)
    (habs : dictGet reg A = Option.none) :
    heartbeat reg A now = reg ∧
    A ∉ (list_agents (heartbeat reg A now)).map Prod.fst := by
  have hno : heartbeat reg A now = reg := by
    simp [heartbeat, habs]
  refine ⟨hno, ?_⟩
  rw [hno]
  intro hmem
  have hfst : A ∈ reg.map Prod.fst := by
    simpa [list_agents, List.map_map, Function.comp] using hmem
  have hsome := dictGet_isSome_of_mem_map_fst hfst
  rw [habs] at hsome
  simp at hsome

/-- Witness for C8: a heartbeat for the absent agent `Ghost` leaves a
one-agent registry unchanged and `Ghost` stays out of `list_agents`. -/
theorem heartbeat_unregistered_noop_witness :
    dictGet ([("Worker1", ⟨["build"], 5⟩)] : Registry) "Ghost" = Option.none ∧
    heartbeat [("Worker1", ⟨["build"], 5⟩)] "Ghost" 99 = [("Worker1", ⟨["build"], 5⟩)] ∧
    "Ghost" ∉ (list_agents (heartbeat [("Worker1", ⟨["build"], 5⟩)] "Ghost" 99)).map Prod.fst := by
  have h := heartbeat_unregistered_noop [("Worker1", ⟨["build"], 5⟩)] "Ghost" 99 (by decide)
  exact ⟨by decide, h.1, h.2⟩

/-!
## Exceptions and Python string coercion

Only the exception kinds that the embedded code paths can actually raise are
modelled. `errMsg` stands for `str(e)`.
-/

/-- The Python exceptions arising in the embedded code. -/
inductive PyError where
  | typeError : String → PyError
  | attributeError : String → PyError
deriving Repr, DecidableEq

/-- `str(e)` for an exception. -/
def errMsg : PyError → String
  | .typeError s => s
  | .attributeError s => s

/-- `f"{v}"`-style coercion of a payload value into log/prompt text. The
renderings of lists and dicts are never relied upon by any theorem; only the
string case matters to the properties proved here. -/
def pyStrOf : PyVal → String
  | .str s => s
  | .num n => toString n
  | .bool b => if b then "True" else "False"
  | .none => "None"
  | .list _ => "[...]"
  | .dict _ => "{...}"

/-- Python `==` against a string literal: true only for an equal `str`. -/
def pyEqStr (v : PyVal) (s : String) : Bool :=
  match v with
  | .str a => decide (a = s)
  | _ => false

/-- `os.path.join(a, b)` for the relative path components the agents build
(the absolute-path override of `os.path.join` never triggers on them). -/
def os_path_join (a b : String) : String :=
  if a = "" then b
  else if a.data.getLast? = some '/' then a ++ b
  else a ++ "/" ++ b

/-!
## Message Bus Adapter — src/AgentService/baseservice.py

`BaseAgent.send_message` (baseservice.py:60-84) builds the wire envelope and
publishes it with `routing_key = receiver + "Queue"`. The fresh
`str(time.time())` message id and the `time.strftime` timestamp are passed in
by the caller as `message_id` / `timestamp`; their concrete values play no
role in any property below.
-/

/-- The wire envelope dict built at baseservice.py:66-73. There is no
`progress` field: the dict literal has exactly these six keys. -/
structure Envelope where
  message_id : String
  sender : String
  receiver : String
  timestamp : String
  type : String
  payload : PyVal
deriving Repr

/-- One `basic_publish` call: the routing key and the envelope it carries. -/
structure SendEffect where
  routing_key : String
  envelope : Envelope
deriving Repr

/-- `BaseAgent.send_message(receiver, message_type, payload)`
(baseservice.py:60-84): construct the envelope and publish it to
`receiver + "Queue"`. -/
def send_message (agent_name message_id timestamp receiver message_type : String)
    (payload : PyVal) : SendEffect :=
  { routing_key := receiver ++ "Queue",
    envelope :=
      { message_id := message_id
        sender := agent_name
        receiver := receiver
        timestamp := timestamp
        type := message_type
        payload := payload } }

/-- The parameter names of `BaseAgent.send_message` besides `self`
(baseservice.py:60). The signature has no `**kwargs` and no `progress`
parameter. -/
def sendMessageParams : List String := ["receiver", "message_type", "payload"]

/-- The keyword names passed at every progress-update call site of
`DeveloperAgent.process_message` (e.g. developeragent.py:462-467, 484-489,
537-542, …): each such call supplies an extra `progress` keyword. -/
def devProgressCallKeywords : List String :=
  ["receiver", "message_type", "payload", "progress"]

/-- Python call semantics: a call whose keyword arguments include a name that
is not a parameter of the callee (and the callee has no `**kwargs`) raises
`TypeError` before the function body runs. -/
def callHasUnexpectedKeyword (params kwargs : List String) : Bool :=
  kwargs.any (fun k => !params.contains k)

/-- A `self.send_message(..., progress=...)` call as issued by
`DeveloperAgent.process_message`. Because `progress` is not among
`sendMessageParams`, the call raises `TypeError` and nothing is published;
were the keyword accepted, the publish of the plain envelope would ensue
(the `progress` argument is retained to mirror the call sites). -/
def send_with_progress (agent_name message_id timestamp receiver message_type : String)
    (payload : PyVal) (_progress : ℚ) : Except PyError SendEffect :=
  if callHasUnexpectedKeyword sendMessageParams devProgressCallKeywords then
    .error (.typeError "send_message() got an unexpected keyword argument: progress")
  else
    .ok (send_message agent_name message_id timestamp receiver message_type payload)

/-- **C4.** The claim says `SendMessage` accepts an optional `progress`
argument; the code's `send_message` has no such parameter, so the
developer agent's progress-update calls — which do pass `progress` — raise
`TypeError`, and the three-argument form builds an envelope with exactly the
six wire fields (no `progress`) published to `receiver + "Queue"`. -/
theorem send_message_progress_kwarg_rejected :
    callHasUnexpectedKeyword sendMessageParams devProgressCallKeywords = true ∧
    (∀ (a mid ts r mt : String) (p : PyVal) (pr : ℚ),
      send_with_progress a mid ts r mt p pr =
        .error (.typeError "send_message() got an unexpected keyword argument: progress")) ∧
    (∀ (a mid ts r mt : String) (p : PyVal),
      send_message a mid ts r mt p =
        { routing_key := r ++ "Queue",
          envelope :=
            { message_id := mid, sender := a, receiver := r, timestamp := ts,
              type := mt, payload := p } }) := by
  refine ⟨rfl, fun a mid ts r mt p pr => rfl, fun a mid ts r mt p => rfl⟩

/-!
## DeveloperAgent — src/AgentService/developeragent.py

`process_message` is translated statement by statement. External
collaborators (the LLM generation call, the local test run, the file server,
the git service) are oracles; the generation and test oracles are indexed by
invocation count so the number of calls is part of the observable behaviour.
-/

/-- `generate_code_files`' result shape: filename → content. -/
abbrev Files := List (String × String)

/-- External collaborators of `DeveloperAgent.process_message`:
* `gen i prompt previous_code error_message` — result of the `i`-th
  `generate_code_files` call (0-based), developeragent.py:492-499 (the
  `include_run_command` / `include_deployment_files` flags only shape the
  prompt text inside the collaborator and are absorbed by it);
* `runTest i files` — `(success, error)` of the `i`-th `run_generated_code`
  call, developeragent.py:566;
* `readFile path` — `fetch_file_from_server` (`none` for a missing file);
* `gitCommit repo msg files` — the status dict `commit_to_git` returns. -/
structure DevOracles where
  gen : Nat → String → Option Files → Option String → Files
  runTest : Nat → Files → Bool × String
  readFile : String → Option String
  gitCommit : String → String → Files → PyVal

/-- Observable effects of one `process_message` call. `notes` records the
`update_development_status (path, entry)` calls (the fetch/append/push
housekeeping inside that helper is summarised by the recorded entry). -/
structure DevTrace where
  notes : List (String × String) := []
  sends : List SendEffect := []
  pushes : List (String × String) := []
  commits : List (String × String) := []
  genCalls : Nat := 0
  testCalls : Nat := 0
deriving Repr

/-- The handler monad: state is the accumulated effect trace; exceptions are
Python exceptions; the state survives a raise (effects performed before the
raise stay performed). -/
abbrev DevM := ExceptT PyError (StateM DevTrace)

def dev_note (path entry : String) : DevM Unit :=
  modify fun tr => { tr with notes := tr.notes ++ [(path, entry)] }

def dev_publish (e : SendEffect) : DevM Unit :=
  modify fun tr => { tr with sends := tr.sends ++ [e] }

def dev_push (path content : String) : DevM Unit :=
  modify fun tr => { tr with pushes := tr.pushes ++ [(path, content)] }

def dev_commit (repo msg : String) : DevM Unit :=
  modify fun tr => { tr with commits := tr.commits ++ [(repo, msg)] }

/-- A three-keyword `self.send_message(...)` call (accepted). -/
def dev_send (agent mid ts receiver message_type : String) (payload : PyVal) : DevM Unit :=
  dev_publish (send_message agent mid ts receiver message_type payload)

/-- A `self.send_message(..., progress=p)` call site; raises per
`send_with_progress`. -/
def dev_send_progress (agent mid ts receiver message_type : String) (payload : PyVal)
    (p : ℚ) : DevM Unit := do
  match send_with_progress agent mid ts receiver message_type payload p with
  | .error e => throw e
  | .ok eff => dev_publish eff

/-- A `generate_code_files` call (counted). -/
def dev_generate (o : DevOracles) (prompt : String) (previous_code : Option Files)
    (error_message : Option String) : DevM Files := do
  let tr ← get
  modify fun t => { t with genCalls := t.genCalls + 1 }
  pure (o.gen tr.genCalls prompt previous_code error_message)

/-- A `run_generated_code` call (counted). -/
def dev_run_tests (o : DevOracles) (files : Files) : DevM (Bool × String) := do
  let tr ← get
  modify fun t => { t with testCalls := t.testCalls + 1 }
  pure (o.runTest tr.testCalls files)

/-- `payload.get(...)` on a value that must be a dict; a non-dict raises
`AttributeError` as in Python. -/
def pyAsDict {m : Type → Type} [Monad m] [MonadExcept PyError m] : PyVal → m Dict
  | .dict d => pure d
  | _ => throw (.attributeError "object has no attribute get")

/-- A value used where Python requires `str` (string concatenation /
`os.path.join`); anything else raises `TypeError`. -/
def pyAsStr {m : Type → Type} [Monad m] [MonadExcept PyError m] : PyVal → m String
  | .str s => pure s
  | _ => throw (.typeError "can only concatenate str (not other types) to str")

/-- Payload of a per-attempt progress update. The source's payload dicts also
carry purely informational keys (message, project_name, project_config,
files, error) that no property depends on. -/
def progressPayload (stage : String) (attempt : Nat) : PyVal :=
  .dict [("stage", .str stage), ("attempt", .num (attempt : Int))]

/-- Payload of a stage-only progress update (start/uploading/committing/
complete/failed), informational keys elided as above. -/
def stagePayload (stage : String) : PyVal :=
  .dict [("stage", .str stage)]

/-- `previous_code` from the payload, as handed to the generation oracle:
a dict of string-valued files, else no previous code. -/
def pvToFiles : PyVal → Option Files
  | .dict d => some (d.filterMap (fun kv =>
      match kv.2 with
      | .str s => some (kv.1, s)
      | _ => Option.none))
  | _ => Option.none

/-- Outcome of the for-loop at developeragent.py:469-629. -/
structure AttemptResult where
  success : Bool
  final_files : Files
  last_error : Option String
deriving Repr

/-- The self-correction loop (developeragent.py:469-629), one recursive step
per remaining attempt (`fuel` counts the iterations left of
`range(1, MAX_GENERATION_ATTEMPTS + 1)`, `attempt_num` is the Python loop
variable). Every iteration opens with a progress-update send (lines 476-489)
that passes the `progress` keyword, so in the code as written that first
statement raises `TypeError`; the translation keeps the full structure of the
source regardless. -/
def dev_attempt_loop (agent mid ts : String) (o : DevOracles) (prompt : String)
    (test_locally : Bool) :
    Nat → Nat → Option Files → Option String → DevM AttemptResult
  | 0, _, _, last_error =>
      -- loop exhausted: success never set (lines 726-737 read this state)
      pure { success := false, final_files := [], last_error }
  | fuel + 1, attempt_num, previous_code, last_error => do
      -- lines 472-489: per-attempt progress update
      dev_send_progress agent mid ts "ManagerAgent" "PROGRESS_UPDATE"
        (progressPayload "generating" attempt_num) (((attempt_num : ℚ) - 1) / 5)
      -- lines 492-499: generation call
      let generated ← dev_generate o prompt previous_code last_error
      if generated.isEmpty then do
        -- lines 503-526: empty artifact counts as a failed attempt
        let err := "No files were generated in this attempt."
        dev_note "" ("Attempt " ++ toString attempt_num ++ " failed: " ++ err)
        dev_send_progress agent mid ts "ManagerAgent" "PROGRESS_UPDATE"
          (progressPayload "error" attempt_num) (((attempt_num : ℚ) - 1) / 5)
        dev_attempt_loop agent mid ts o prompt test_locally fuel (attempt_num + 1)
          previous_code (some err)
      else do
        -- lines 529-542
        dev_send_progress agent mid ts "ManagerAgent" "PROGRESS_UPDATE"
          (progressPayload "files_generated" attempt_num)
          (((attempt_num : ℚ) - 1) / 5 + 1 / 10)
        if test_locally then do
          -- lines 546-559
          dev_send_progress agent mid ts "ManagerAgent" "PROGRESS_UPDATE"
            (progressPayload "testing" attempt_num) (((attempt_num : ℚ) - 1) / 5 + 3 / 20)
          -- line 566: run the generated code
          let tested ← dev_run_tests o generated
          if tested.1 then do
            -- lines 567-585: validation success ends the loop
            dev_send_progress agent mid ts "ManagerAgent" "PROGRESS_UPDATE"
              (progressPayload "test_success" attempt_num) (4 / 5)
            pure { success := true, final_files := generated, last_error }
          else do
            -- lines 586-609: error feeds the next attempt; the just-produced
            -- files become previous_code
            dev_note "" ("Attempt " ++ toString attempt_num ++
              " had error. Retrying with error:\n" ++ tested.2)
            dev_send_progress agent mid ts "ManagerAgent" "PROGRESS_UPDATE"
              (progressPayload "test_error" attempt_num)
              (((attempt_num : ℚ) - 1) / 5 + 1 / 5)
            dev_attempt_loop agent mid ts o prompt test_locally fuel (attempt_num + 1)
              (some generated) (some tested.2)
        else do
          -- lines 610-629: no local testing — generation alone is success
          dev_send_progress agent mid ts "ManagerAgent" "PROGRESS_UPDATE"
            (progressPayload "generation_complete" attempt_num) (4 / 5)
          pure { success := true, final_files := generated, last_error }

/-- The terminal reply (developeragent.py:754-759): the only send without a
`progress` keyword. The receiver `message.get("sender", "ManagerAgent")`
must be a string for the routing-key concatenation inside `send_message`. -/
def dev_reply (agent mid ts : String) (message : Dict) (payload : PyVal) : DevM Unit := do
  let rcv ← pyAsStr (dget message "sender" (.str "ManagerAgent"))
  dev_send agent mid ts rcv "TASK_EXECUTION" payload

/-- Post-loop handling (developeragent.py:631-759): push/commit on success,
failure summary otherwise, then the terminal `TASK_EXECUTION` reply. The
response payload keeps the decision-relevant keys; the bookkeeping keys
`file_upload_results` / `existing_files` / `git_commit` contents are carried
through the `gitCommit` oracle or elided. -/
def dev_after_loop (agent mid ts : String) (o : DevOracles) (message : Dict)
    (project_config : PyVal) (fsf dsp : String)
    (git_repo commit_message upload_flag : PyVal) (r : AttemptResult) : DevM Unit := do
  if r.success && !r.final_files.isEmpty then do
    -- lines 642-654
    dev_send_progress agent mid ts "ManagerAgent" "PROGRESS_UPDATE"
      (stagePayload "uploading") (17 / 20)
    -- lines 657-678: upload, skipping files already present with identical content
    if truthy upload_flag && !decide (fsf = "") then do
      let existing : Files := r.final_files.filterMap (fun fp =>
        match o.readFile (os_path_join fsf fp.1) with
        | some c => if c = "" then Option.none else some (fp.1, c)
        | Option.none => Option.none)
      let remaining := r.final_files.filter
        (fun fp => !(dictGet existing fp.1 == some fp.2))
      for fp in remaining do
        dev_push (os_path_join fsf fp.1) fp.2
    -- lines 681-684
    dev_note dsp "Code generation complete. Tests passed (or tests disabled)."
    -- lines 687-704
    if truthy git_repo then do
      dev_send_progress agent mid ts "ManagerAgent" "PROGRESS_UPDATE"
        (stagePayload "committing") (9 / 10)
      dev_commit (pyStrOf git_repo) (pyStrOf commit_message)
    -- lines 706-709: written whether or not a repo was given
    dev_note dsp ("Changes committed to Git repo: " ++ pyStrOf git_repo)
    -- lines 712-724
    dev_send_progress agent mid ts "ManagerAgent" "PROGRESS_UPDATE"
      (stagePayload "complete") 1
    -- lines 754-759
    dev_reply agent mid ts message (.dict ([
      ("project_config", project_config),
      ("generated_files", .list (r.final_files.map (fun fp => .str fp.1))),
      ("code_generation_status", .str "success")] ++
      (if truthy git_repo then
        [("git_commit", o.gitCommit (pyStrOf git_repo) (pyStrOf commit_message) r.final_files)]
      else [])))
  else do
    -- lines 727-752
    dev_note dsp "All 5 attempts failed. Aborting."
    dev_send_progress agent mid ts "ManagerAgent" "PROGRESS_UPDATE"
      (stagePayload "failed") 1
    -- lines 754-759
    dev_reply agent mid ts message (.dict ([
      ("project_config", project_config),
      ("code_generation_status", .str "failure"),
      ("error", .str "Self-correction failed after 5 attempts.")] ++
      (match r.last_error with
       | some e => [("last_error_message", .str e)]
       | Option.none => [])))

/-- The `TASK_ASSIGNMENT` branch of `DeveloperAgent.process_message`
(developeragent.py:427-759), entered when the type matches and the payload
has a truthy `prompt`. -/
def dev_task_branch (agent mid ts : String) (o : DevOracles) (message : Dict)
    (p : Dict) : DevM Unit := do
  -- lines 428-435
  let prompt := pyStrOf (dget p "prompt" .none)
  let project_config := dget p "project_config" (.dict [])
  let git_repo := dget p "git_repo" .none
  let commit_message := dget p "commit_message" (.str "Auto-commit from DeveloperAgent")
  let upload_flag := dget p "upload_to_file_server" (.bool true)
  let test_locally := truthy (dget p "test_locally" (.bool true))
  -- lines 438-439: `project_config.get(...)` requires a dict
  let pc ← pyAsDict project_config
  let fsf ← pyAsStr (dget pc "file_server_folder" (.str ""))
  let dsp := os_path_join fsf "developmentstatus.md"
  -- lines 442-445
  dev_note dsp ("Received new TASK_ASSIGNMENT. Prompt: " ++ prompt)
  -- lines 450-453
  let previous_code := pvToFiles (dget p "previous_code" .none)
  -- lines 455-467: the initial progress update (raises TypeError, see
  -- send_with_progress)
  dev_send_progress agent mid ts "ManagerAgent" "PROGRESS_UPDATE"
    (stagePayload "start") 0
  -- lines 469-629
  let r ← dev_attempt_loop agent mid ts o prompt test_locally 5 1
    previous_code Option.none
  -- lines 631-759
  dev_after_loop agent mid ts o message project_config fsf dsp
    git_repo commit_message upload_flag r

/-- The guarded body of `DeveloperAgent.process_message`
(developeragent.py:423-763, the code inside the `try`). -/
def dev_body (agent mid ts : String) (o : DevOracles) (message : Dict) : DevM Unit := do
  -- lines 424-425
  let msg_type := dget message "type" (.str "")
  let payload := dget message "payload" (.dict [])
  -- line 427: `if msg_type == "TASK_ASSIGNMENT" and payload.get("prompt"):`
  -- (the `and` short-circuits, so `payload.get` runs only for that type)
  if pyEqStr msg_type "TASK_ASSIGNMENT" then
    match payload with
    | .dict p =>
        if truthy (dget p "prompt" .none) then
          dev_task_branch agent mid ts o message p
        else
          pure ()  -- lines 761-763: log "Ignoring message" and return
    | _ => throw (.attributeError "object has no attribute get")
  else
    pure ()  -- lines 761-763: log "Ignoring message" and return

/-- `DeveloperAgent.process_message` (developeragent.py:419-772): run the
body; an exception is caught at line 765 and answered with a `STATUS_UPDATE`
to `message.get("sender", "ManagerAgent")`. A non-string sender would make
the reply's own routing-key concatenation raise, letting an exception escape
`process_message` (second component `some _`). -/
def dev_process_message (agent mid ts : String) (o : DevOracles) (message : Dict) :
    DevTrace × Option PyError :=
  match (ExceptT.run (dev_body agent mid ts o message)).run {} with
  | (.ok _, tr) => (tr, Option.none)
  | (.error e, tr) =>
      match dget message "sender" (.str "ManagerAgent") with
      | .str s =>
          ({ tr with sends := tr.sends ++
              [send_message agent mid ts s "STATUS_UPDATE"
                (.dict [("status", .str "failure"), ("error", .str (errMsg e))])] },
           Option.none)
      | _ => (tr, some (.typeError "can only concatenate str (not other types) to str"))

/-- The consume callback (baseservice.py:92-96): `process_message`, then
`basic_ack`. The Boolean records whether the ack ran — it does not when an
exception escapes `process_message`. -/
def dev_listen_callback (agent mid ts : String) (o : DevOracles) (message : Dict) :
    DevTrace × Bool :=
  match dev_process_message agent mid ts o message with
  | (tr, Option.none) => (tr, true)
  | (tr, some _) => (tr, false)

/-!
### DeveloperAgent claims
-/

/-- A well-formed task assignment as the ManagerAgent sends it
(manageragent.py:483-500): type `TASK_ASSIGNMENT`, a non-empty prompt and a
`project_config` dict. -/
def taskAssignmentMsg : Dict :=
  [("message_id", .str "1700000000.0"), ("sender", .str "ManagerAgent"),
   ("receiver", .str "DeveloperAgent"), ("timestamp", .str "2026-01-01T00:00:00Z"),
   ("type", .str "TASK_ASSIGNMENT"),
   ("payload", .dict
     [("prompt", .str "Task assigned via LLM. Requirement:\nBuild a calculator app"),
      ("project_config", .dict
        [("project_name", .str "project_1"),
         ("file_server_folder", .str "uploads/project_1")])])]

/-- **C2.** The claim says a task whose generation always fails validation
gets exactly 5 generation calls and a failure outcome. In the code, handling
any well-formed task assignment raises `TypeError` at the initial
progress-update send (developeragent.py:462-467 passes `progress`, which
`send_message` does not accept), before the loop runs: for every behaviour
of the generation/validation collaborators — in particular one that always
fails — zero generation calls happen, and the only published envelope is the
`STATUS_UPDATE` carrying the `TypeError`, not a `TASK_EXECUTION` failure
after five attempts. -/
theorem dev_retry_engine_never_generates (o : DevOracles) (mid ts : String) :
    (dev_listen_callback "DeveloperAgent" mid ts o taskAssignmentMsg).1.genCalls = 0 ∧
    (dev_listen_callback "DeveloperAgent" mid ts o taskAssignmentMsg).1.sends.map
      (fun s => (s.envelope.type, s.routing_key, s.envelope.payload)) =
      [("STATUS_UPDATE", "ManagerAgentQueue",
        .dict [("status", .str "failure"),
               ("error", .str "send_message() got an unexpected keyword argument: progress")])] ∧
    (dev_listen_callback "DeveloperAgent" mid ts o taskAssignmentMsg).2 = true :=
  ⟨rfl, rfl, rfl⟩

/-- A generation collaborator whose artifact would pass validation on the
third attempt and fail on the first two (`runTest` call index is 0-based). -/
def oracleSucceedsOnThird : DevOracles :=
  { gen := fun _ _ _ _ => [("app.py", "print(1)")],
    runTest := fun i _ =>
      if i = 2 then (true, "") else (false, "Process exited with code 1"),
    readFile := fun _ => Option.none,
    gitCommit := fun _ _ _ => .dict [("status", .str "success")] }

/-- **C5.** The claim says a generation function that passes validation on
attempt 3 of 5 makes the engine stop at attempt 3 with success. In the code,
the same initial `TypeError` (progress keyword) aborts before attempt 1:
with the succeeds-on-third collaborator, zero generation calls and zero
validation calls happen and no success `TASK_EXECUTION` is published — only
the `STATUS_UPDATE` carrying the `TypeError`. -/
theorem dev_early_exit_never_reached (mid ts : String) :
    (dev_listen_callback "DeveloperAgent" mid ts oracleSucceedsOnThird taskAssignmentMsg).1.genCalls = 0 ∧
    (dev_listen_callback "DeveloperAgent" mid ts oracleSucceedsOnThird taskAssignmentMsg).1.testCalls = 0 ∧
    (dev_listen_callback "DeveloperAgent" mid ts oracleSucceedsOnThird taskAssignmentMsg).1.sends.map
      (fun s => s.envelope.type) = ["STATUS_UPDATE"] ∧
    (dev_listen_callback "DeveloperAgent" mid ts oracleSucceedsOnThird taskAssignmentMsg).2 = true :=
  ⟨rfl, rfl, rfl, rfl⟩

/-- **C3.** Whenever the body of the handler raises, the exception is caught
(developeragent.py:765), a `STATUS_UPDATE` goes back to the envelope's
sender — or to the default controller name `ManagerAgent` when the sender
field is absent — and the message is still acknowledged by the consume
callback (baseservice.py:92-96). Stated for senders that are absent or
string-valued, the only shapes the wire protocol produces. -/
theorem dev_dispatch_boundary (agent mid ts : String) (o : DevOracles) (message : Dict)
    (e : PyError)
    (herr : ((ExceptT.run (dev_body agent mid ts o message)).run {}).1 = .error e)
    (hsender : dictGet message "sender" = Option.none ∨
      ∃ s : String, dictGet message "sender" = some (.str s)) :
    (dev_listen_callback agent mid ts o message).2 = true ∧
    (dev_listen_callback agent mid ts o message).1.sends =
      ((ExceptT.run (dev_body agent mid ts o message)).run {}).2.sends ++
        [send_message agent mid ts
          (match dictGet message "sender" with
           | some (.str s) => s
           | _ => "ManagerAgent") "STATUS_UPDATE"
          (.dict [("status", .str "failure"), ("error", .str (errMsg e))])] := by
  obtain ⟨tr, htr⟩ : ∃ tr : DevTrace,
      (ExceptT.run (dev_body agent mid ts o message)).run {} = (Except.error e, tr) := by
    refine ⟨((ExceptT.run (dev_body agent mid ts o message)).run {}).2, ?_⟩
    rw [Prod.ext_iff]
    exact ⟨herr, rfl⟩
  unfold dev_listen_callback dev_process_message
  rw [htr]
  rcases hsender with hnone | ⟨s, hs⟩
  · simp [dget, hnone]
  · simp [dget, hs]

/-- A task assignment with no sender field: the handler's initial progress
send raises, and the reply defaults to the controller name. -/
def taskAssignmentMsgNoSender : Dict :=
  [("type", .str "TASK_ASSIGNMENT"),
   ("payload", .dict
     [("prompt", .str "Build a parser"),
      ("project_config", .dict [("file_server_folder", .str "uploads/p")])])]

/-- Collaborators that generate nothing; only their types matter to the
raising paths. -/
def devOraclesNull : DevOracles :=
  { gen := fun _ _ _ _ => [],
    runTest := fun _ _ => (false, ""),
    readFile := fun _ => Option.none,
    gitCommit := fun _ _ _ => PyVal.none }

/-- Witness for C3: on a sender-less task assignment the body raises (the
progress-keyword `TypeError`), the reply goes to the default controller name
`ManagerAgent`, and the message is acknowledged. -/
theorem dev_dispatch_boundary_witness :
    ((ExceptT.run (dev_body "DeveloperAgent" "mid" "ts" devOraclesNull
        taskAssignmentMsgNoSender)).run {}).1 =
      .error (.typeError "send_message() got an unexpected keyword argument: progress") ∧
    dictGet taskAssignmentMsgNoSender "sender" = Option.none ∧
    (dev_listen_callback "DeveloperAgent" "mid" "ts" devOraclesNull
        taskAssignmentMsgNoSender).2 = true ∧
    (dev_listen_callback "DeveloperAgent" "mid" "ts" devOraclesNull
        taskAssignmentMsgNoSender).1.sends =
      ((ExceptT.run (dev_body "DeveloperAgent" "mid" "ts" devOraclesNull
          taskAssignmentMsgNoSender)).run {}).2.sends ++
        [send_message "DeveloperAgent" "mid" "ts" "ManagerAgent" "STATUS_UPDATE"
          (.dict [("status", .str "failure"),
                  ("error", .str "send_message() got an unexpected keyword argument: progress")])] := by
  have h := dev_dispatch_boundary "DeveloperAgent" "mid" "ts" devOraclesNull
    taskAssignmentMsgNoSender
    (.typeError "send_message() got an unexpected keyword argument: progress")
    rfl (Or.inl rfl)
  exact ⟨rfl, rfl, h.1, h.2⟩

/-- **C10.** A `TASK_ASSIGNMENT` whose payload is a dict without a truthy
`prompt` falls into the logging branch (developeragent.py:761-763): the
handler returns with an empty effect trace — no `TASK_EXECUTION`, no
`STATUS_UPDATE`, no envelope at all — and the message is acknowledged. -/
theorem dev_missing_prompt_no_reply (agent mid ts : String) (o : DevOracles)
    (message : Dict) (p : Dict)
    (htype : dget message "type" (.str "") = .str "TASK_ASSIGNMENT")
    (hpayload : dget message "payload" (.dict []) = .dict p)
    (hprompt : truthy (dget p "prompt" .none) = false) :
    dev_listen_callback agent mid ts o message = ({}, true) := by
  simp only [dev_listen_callback, dev_process_message, dev_body, htype, hpayload, hprompt]
  rfl

/-- A task assignment whose payload has no `prompt` key at all. -/
def taskAssignmentMsgNoPrompt : Dict :=
  [("sender", .str "ManagerAgent"), ("type", .str "TASK_ASSIGNMENT"),
   ("payload", .dict [("project_config", .dict [("file_server_folder", .str "uploads/p")])])]

/-- Witness for C10 at a concrete promptless assignment. -/
theorem dev_missing_prompt_no_reply_witness :
    dget taskAssignmentMsgNoPrompt "type" (.str "") = .str "TASK_ASSIGNMENT" ∧
    dget taskAssignmentMsgNoPrompt "payload" (.dict []) =
      .dict [("project_config", .dict [("file_server_folder", .str "uploads/p")])] ∧
    truthy (dget [("project_config", .dict [("file_server_folder", .str "uploads/p")])]
      "prompt" .none) = false ∧
    dev_listen_callback "DeveloperAgent" "mid" "ts" devOraclesNull
      taskAssignmentMsgNoPrompt = ({}, true) :=
  ⟨rfl, rfl, rfl,
    dev_missing_prompt_no_reply "DeveloperAgent" "mid" "ts" devOraclesNull
      taskAssignmentMsgNoPrompt
      [("project_config", .dict [("file_server_folder", .str "uploads/p")])]
      rfl rfl rfl⟩

/-!
## ManagerAgent — src/AgentService/manageragent.py

The controller decision loop. The registry snapshot and the two LLM decision
calls are oracles; a `none` oracle result stands for an LLM call that failed
or returned unparseable output, in which case the code substitutes the
literal fallback dicts below.
-/

/-- External collaborators of `ManagerAgent.process_message`:
* `agents_and_caps` — the `list_agents_from_registry()` snapshot (`[]` on a
  registry error), manageragent.py:37-50; the code serialises it into the
  oracle prompts and uses it nowhere else;
* `llm_for_action` — `ask_llm_for_action`'s parsed JSON dict, `none` when
  the call fails or the output is unparseable (manageragent.py:164-185);
* `llm_after_task` — likewise for `ask_llm_after_task_execution`
  (manageragent.py:251-273);
* `readFile` — `read_file_from_server` (returns `""` for missing/error),
  manageragent.py:53-76. -/
structure MgrOracles where
  agents_and_caps : Dict
  llm_for_action : Option Dict
  llm_after_task : Option Dict
  readFile : String → String

/-- `ask_llm_for_action` (manageragent.py:107-194): the oracle's dict on
success, and on any failure the literal fallback of lines 186-194 — a
clarification request with one synthetic question. -/
def ask_llm_for_action_result (oracle : Option Dict) : Dict :=
  match oracle with
  | some d => d
  | Option.none =>
      [("action", .str "clarification"),
       ("clarifications", .list [.str "LLM error or invalid response, please clarify."]),
       ("selected_agent", .str ""),
       ("capability_required", .str ""),
       ("reason", .str "LLM fallback")]

/-- `ask_llm_after_task_execution` (manageragent.py:197-279): the oracle's
dict on success, and on any failure the literal fallback of lines 274-279 —
whose action is `project_completed`, not `clarification`. -/
def ask_llm_after_task_execution_result (oracle : Option Dict) : Dict :=
  match oracle with
  | some d => d
  | Option.none =>
      [("action", .str "project_completed"),
       ("selected_agent", .str ""),
       ("capability_required", .str ""),
       ("reason", .str "LLM fallback: error")]

/-- Observable effects of one `ManagerAgent.process_message` call. -/
structure MgrTrace where
  gitInits : List String := []
  fileWrites : List (String × String) := []
  sends : List SendEffect := []
  clarifications : List (PyVal × String × PyVal × PyVal) := []
  forwards : List (String × PyVal × PyVal) := []
deriving Repr

/-- Handler monad of the manager, like `DevM`. -/
abbrev MgrM := ExceptT PyError (StateM MgrTrace)

/-- The elementary trace-extending action (`modify` written as a plain state
function so that proofs can rewrite its run). -/
def mgrEffect (f : MgrTrace → MgrTrace) : MgrM Unit :=
  ExceptT.mk (fun tr => (Except.ok (), f tr))

@[simp] theorem run_mgrEffect (f : MgrTrace → MgrTrace) (tr : MgrTrace) :
    (ExceptT.run (mgrEffect f)).run tr = (Except.ok (), f tr) := rfl

/-- `init_git_repo` (manageragent.py:93-104). -/
def mgr_git_init (repo : String) : MgrM Unit :=
  mgrEffect fun tr => { tr with gitInits := tr.gitInits ++ [repo] }

/-- `write_file_to_server` (manageragent.py:79-90). -/
def mgr_write (path content : String) : MgrM Unit :=
  mgrEffect fun tr => { tr with fileWrites := tr.fileWrites ++ [(path, content)] }

/-- A three-keyword `self.send_message(...)` call (manageragent.py:496-500,
574-578 — the manager never passes `progress`). -/
def mgr_send (agent mid ts receiver message_type : String) (payload : PyVal) : MgrM Unit :=
  mgrEffect fun tr =>
    { tr with sends := tr.sends ++ [send_message agent mid ts receiver message_type payload] }

/-- `post_clarification_request_to_frontend` (manageragent.py:361-384):
records `(project_name, requirement, clarifications, reason)`. -/
def mgr_clarify (project_name : PyVal) (requirement : String)
    (clarifications reason : PyVal) : MgrM Unit :=
  mgrEffect fun tr =>
    { tr with clarifications :=
        tr.clarifications ++ [(project_name, requirement, clarifications, reason)] }

/-- `forward_message_to_frontend` (manageragent.py:310-358): records
`(message_type, payload, progress)` (`PyVal.none` for the default). -/
def mgr_forward (message_type : String) (payload progress : PyVal) : MgrM Unit :=
  mgrEffect fun tr =>
    { tr with forwards := tr.forwards ++ [(message_type, payload, progress)] }

/-- The dict returned by `create_project_in_fileserver`, or rebuilt from an
existing `project_config` (manageragent.py:302-307 and 428-433). -/
structure ProjectDetails where
  project_name : PyVal
  file_server_folder : PyVal
  requirements_path : String
  status_path : String

/-- `create_project_in_fileserver` (manageragent.py:282-307);
`int(time.time())` is the `now` argument. -/
def create_project_in_fileserver (now : Nat) (requirement_text : String) :
    MgrM ProjectDetails := do
  let project_name := "project_" ++ toString now
  let file_server_folder := "uploads/" ++ project_name
  mgr_git_init project_name
  let req_path := file_server_folder ++ "/requirements.md"
  mgr_write req_path requirement_text
  let status_path := file_server_folder ++ "/status.md"
  mgr_write status_path "Project initialized."
  pure { project_name := .str project_name, file_server_folder := .str file_server_folder,
         requirements_path := req_path, status_path := status_path }

/-- The NEW_REQUIREMENT / UPDATE_REQUIREMENT / CLARIFICATION_RESPONSE branch
(manageragent.py:412-509). `ts` stands for the `time.strftime` timestamps;
payload values that Python renders through f-strings go through `pyStrOf`.
Note lines 473 and 501-509: the `assign_task` arm checks only that
`selected_agent` is truthy — membership in the registry snapshot is never
consulted. -/
def mgr_requirement_branch (agent mid ts : String) (now : Nat) (o : MgrOracles)
    (msg_type : String) (payload : Dict) : MgrM Unit := do
  -- lines 414-416
  let clar := dget payload "clarification" PyVal.none
  let new_request := pyStrOf (dget payload "requirement" (.str "")) ++
    (if truthy clar then "\n\nAdditional Clarification:\n" ++ pyStrOf clar else "")
  -- line 421: the registry snapshot o.agents_and_caps — feeds only the
  -- oracle prompt
  -- lines 424-443
  let project_config := dget payload "project_config" PyVal.none
  let details ←
    if truthy project_config &&
        (decide (msg_type = "UPDATE_REQUIREMENT") ||
         decide (msg_type = "CLARIFICATION_RESPONSE")) then do
      let pc ← pyAsDict project_config
      let folder := pyStrOf (dget pc "file_server_folder" PyVal.none)
      let details : ProjectDetails :=
        { project_name := dget pc "project_name" PyVal.none,
          file_server_folder := dget pc "file_server_folder" PyVal.none,
          requirements_path := folder ++ "/requirements.md",
          status_path := folder ++ "/status.md" }
      if decide (msg_type = "UPDATE_REQUIREMENT") then do
        -- lines 436-440: append the update to requirements.md
        let current := o.readFile details.requirements_path
        mgr_write details.requirements_path
          (current ++ "\n\n## Update " ++ ts ++ ":\n" ++ new_request)
      pure details
    else
      create_project_in_fileserver now new_request
  -- lines 446-447
  let req_content := o.readFile details.requirements_path
  let status_content := o.readFile details.status_path
  -- lines 450-461
  let llm_result := ask_llm_for_action_result o.llm_for_action
  let action := dget llm_result "action" (.str "clarification")
  let clarifications := dget llm_result "clarifications" (.list [])
  let selected_agent := dget llm_result "selected_agent" (.str "")
  let capability_req := dget llm_result "capability_required" (.str "")
  let reason := dget llm_result "reason" (.str "")
  -- lines 463-509
  if pyEqStr action "clarification" then
    -- lines 463-471
    mgr_clarify details.project_name new_request clarifications reason
  else if pyEqStr action "assign_task" && truthy selected_agent then do
    -- lines 477-480
    let updated_status := status_content ++ "\n\n" ++ ts ++ " - Task assigned to " ++
      pyStrOf selected_agent ++ " with capability " ++ pyStrOf capability_req ++ "."
    mgr_write details.status_path updated_status
    -- lines 483-500
    let task_payload : PyVal := .dict
      [("prompt", .str ("Task assigned via LLM. Requirement:\n" ++ new_request)),
       ("project_config", .dict
         [("project_name", details.project_name),
          ("file_server_folder", details.file_server_folder),
          ("requirements_md", .str req_content),
          ("status_md", .str updated_status),
          ("repo_name", details.project_name)]),
       ("assigned_by", .str agent),
       ("reason", reason)]
    let rcv ← pyAsStr selected_agent
    mgr_send agent mid ts rcv "TASK_ASSIGNMENT" task_payload
  else
    -- lines 501-509
    mgr_clarify details.project_name new_request
      (.list [.str "No valid agent selected by LLM."]) (.str "Fallback")

/-- The TASK_EXECUTION branch (manageragent.py:519-584). The payload's
`code_generation_status` (line 527) and the file contents read at lines
534-535 feed only the oracle prompt. Note lines 560 and 579-584: the
`assign_task` arm again checks only that `selected_agent` is truthy, and the
fallback for an invalid decision marks the project completed. -/
def mgr_task_execution_branch (agent mid ts : String) (o : MgrOracles)
    (payload : Dict) : MgrM Unit := do
  -- line 524
  mgr_forward "TASK_EXECUTION" (.dict payload) PyVal.none
  -- lines 527-531
  let project_config := dget payload "project_config" (.dict [])
  let pc ← pyAsDict project_config
  let fsf ← pyAsStr (dget pc "file_server_folder" (.str ""))
  let status_md_path := os_path_join fsf "status.md"
  -- lines 534-535
  let status_content := o.readFile status_md_path
  -- line 538: the registry snapshot o.agents_and_caps — feeds only the
  -- oracle prompt
  -- lines 541-551
  let llm_decision := ask_llm_after_task_execution_result o.llm_after_task
  let next_action := dget llm_decision "action" (.str "project_completed")
  let selected_agent := dget llm_decision "selected_agent" (.str "")
  let capability_req := dget llm_decision "capability_required" (.str "")
  let reason := dget llm_decision "reason" (.str "")
  -- lines 553-584
  if pyEqStr next_action "project_completed" then
    -- lines 553-558
    mgr_write status_md_path
      (status_content ++ "\n\n" ++ ts ++
        " - Project marked as completed by ManagerAgent (LLM decision).")
  else if pyEqStr next_action "assign_task" && truthy selected_agent then do
    -- lines 560-578
    mgr_write status_md_path
      (status_content ++ "\n\n" ++ ts ++ " - Assigned next task to " ++
        pyStrOf selected_agent ++ " with capability " ++ pyStrOf capability_req ++ ".")
    let next_task_payload : PyVal := .dict
      [("prompt", .str "Next task assigned via post-task LLM decision."),
       ("project_config", project_config),
       ("assigned_by", .str agent),
       ("reason", reason)]
    let rcv ← pyAsStr selected_agent
    mgr_send agent mid ts rcv "TASK_ASSIGNMENT" next_task_payload
  else
    -- lines 579-584
    mgr_write status_md_path
      (status_content ++ "\n\n" ++ ts ++
        " - No valid next step from LLM. Marking project completed.")

/-- The guarded body of `ManagerAgent.process_message`
(manageragent.py:408-587, the code inside the `try`). -/
def mgr_body (agent mid ts : String) (now : Nat) (o : MgrOracles) (message : Dict) :
    MgrM Unit := do
  -- lines 409-410
  let msg_type := dget message "type" (.str "")
  let payload := dget message "payload" (.dict [])
  match msg_type with
  | .str s =>
      if decide (s = "NEW_REQUIREMENT") || decide (s = "UPDATE_REQUIREMENT") ||
          decide (s = "CLARIFICATION_RESPONSE") then do
        -- line 414: `payload.get` requires a dict
        let p ← pyAsDict payload
        mgr_requirement_branch agent mid ts now o s p
      else if decide (s = "PROGRESS_UPDATE") then do
        -- lines 511-517
        let progress := dget message "progress" (.num 0)
        mgr_forward "PROGRESS_UPDATE" payload progress
      else if decide (s = "TASK_EXECUTION") then do
        -- line 527: `payload.get` requires a dict
        let p ← pyAsDict payload
        mgr_task_execution_branch agent mid ts o p
      else
        pure ()  -- lines 586-587: log and ignore
  | _ => pure ()  -- a non-string type compares unequal to every tag: log and ignore

/-- `ManagerAgent.process_message` (manageragent.py:407-598): run the body;
an exception is caught at line 588 and answered with a `STATUS_UPDATE` to
`message.get("sender", "Client")`. -/
def mgr_process_message (agent mid ts : String) (now : Nat) (o : MgrOracles)
    (message : Dict) : MgrTrace × Option PyError :=
  match (ExceptT.run (mgr_body agent mid ts now o message)).run {} with
  | (.ok _, tr) => (tr, Option.none)
  | (.error e, tr) =>
      match dget message "sender" (.str "Client") with
      | .str s =>
          ({ tr with sends := tr.sends ++
              [send_message agent mid ts s "STATUS_UPDATE"
                (.dict [("status", .str "failure"), ("error", .str (errMsg e))])] },
           Option.none)
      | _ => (tr, some (.typeError "can only concatenate str (not other types) to str"))

/-!
### ManagerAgent claims
-/

/-- An oracle decision of shape
`{action: "assign_task", selected_agent: a, capability_required: cap, reason}`. -/
def mkAssignDecision (a cap reason : String) : Dict :=
  [("action", .str "assign_task"), ("clarifications", .list []),
   ("selected_agent", .str a), ("capability_required", .str cap),
   ("reason", .str reason)]

/-- A fresh-requirement envelope as the frontend publishes it. -/
def mkNewRequirementMsg (sender req : String) : Dict :=
  [("sender", .str sender), ("type", .str "NEW_REQUIREMENT"),
   ("payload", .dict [("requirement", .str req)])]

/-- A task-outcome envelope as the worker replies it (developeragent.py:755-759),
with the project folder the next decision needs. -/
def mkTaskExecutionMsg (sender folder : String) : Dict :=
  [("sender", .str sender), ("type", .str "TASK_EXECUTION"),
   ("payload", .dict
     [("code_generation_status", .str "failure"),
      ("project_config", .dict [("file_server_folder", .str folder)])])]

/-- A registry snapshot that does not contain `GhostAgent`. -/
def registrySnapshotNoGhost : Dict :=
  [("DeveloperAgent", .list [.str "code_implementation"])]

/-- Oracles for the C1 scenario: the decision names `GhostAgent`, which is
absent from the snapshot. -/
def mgrOraclesGhost : MgrOracles :=
  { agents_and_caps := registrySnapshotNoGhost,
    llm_for_action := some (mkAssignDecision "GhostAgent" "automated_testing" "next step"),
    llm_after_task := some (mkAssignDecision "GhostAgent" "automated_testing" "next step"),
    readFile := fun _ => "" }

/-- **C1, counterexample.** With `GhostAgent` absent from the registry
snapshot, the Controller does not fall back to a clarification request: it
publishes the task-assignment envelope to `GhostAgentQueue` anyway
(manageragent.py:473-500 checks only that `selected_agent` is non-empty,
never the snapshot), posting no clarification. -/
theorem mgr_assigns_to_absent_agent :
    dictGet registrySnapshotNoGhost "GhostAgent" = Option.none ∧
    (mgr_process_message "ManagerAgent" "mid" "ts" 0 mgrOraclesGhost
        (mkNewRequirementMsg "FrontendService" "Build a TODO app")).1.sends.map
      (fun s => (s.envelope.type, s.routing_key)) =
        [("TASK_ASSIGNMENT", "GhostAgentQueue")] ∧
    (mgr_process_message "ManagerAgent" "mid" "ts" 0 mgrOraclesGhost
        (mkNewRequirementMsg "FrontendService" "Build a TODO app")).1.clarifications = [] ∧
    (mgr_process_message "ManagerAgent" "mid" "ts" 0 mgrOraclesGhost
        (mkNewRequirementMsg "FrontendService" "Build a TODO app")).2 = Option.none :=
  ⟨rfl, rfl, rfl, rfl⟩

/-- **C1, amended.** For every oracle `assign_task` decision naming a
non-empty agent, the Controller publishes the task-assignment envelope to
that agent's queue whether or not the agent is in the registry snapshot —
in the initial-requirement path and in the after-task path alike — and posts
no clarification; the clarification fallback of the initial path fires only
when the selected agent is empty (or the action invalid). -/
theorem mgr_assign_task_ignores_registry
    (snapshot : Dict) (readF : String → String) (lat lfa : Option Dict)
    (sender req folder a cap reason : String) (now : Nat) (mid ts : String)
    (ha : a ≠ "") :
    ((mgr_process_message "ManagerAgent" mid ts now
        ⟨snapshot, some (mkAssignDecision a cap reason), lat, readF⟩
        (mkNewRequirementMsg sender req)).1.sends.map
          (fun s => (s.envelope.type, s.routing_key)) =
        [("TASK_ASSIGNMENT", a ++ "Queue")] ∧
      (mgr_process_message "ManagerAgent" mid ts now
        ⟨snapshot, some (mkAssignDecision a cap reason), lat, readF⟩
        (mkNewRequirementMsg sender req)).1.clarifications = [] ∧
      (mgr_process_message "ManagerAgent" mid ts now
        ⟨snapshot, some (mkAssignDecision a cap reason), lat, readF⟩
        (mkNewRequirementMsg sender req)).2 = Option.none) ∧
    ((mgr_process_message "ManagerAgent" mid ts now
        ⟨snapshot, lfa, some (mkAssignDecision a cap reason), readF⟩
        (mkTaskExecutionMsg sender folder)).1.sends.map
          (fun s => (s.envelope.type, s.routing_key)) =
        [("TASK_ASSIGNMENT", a ++ "Queue")] ∧
      (mgr_process_message "ManagerAgent" mid ts now
        ⟨snapshot, lfa, some (mkAssignDecision a cap reason), readF⟩
        (mkTaskExecutionMsg sender folder)).1.clarifications = [] ∧
      (mgr_process_message "ManagerAgent" mid ts now
        ⟨snapshot, lfa, some (mkAssignDecision a cap reason), readF⟩
        (mkTaskExecutionMsg sender folder)).2 = Option.none) ∧
    ((mgr_process_message "ManagerAgent" mid ts now
        ⟨snapshot, some (mkAssignDecision "" cap reason), lat, readF⟩
        (mkNewRequirementMsg sender req)).1.sends = [] ∧
      (mgr_process_message "ManagerAgent" mid ts now
        ⟨snapshot, some (mkAssignDecision "" cap reason), lat, readF⟩
        (mkNewRequirementMsg sender req)).1.clarifications.map
          (fun c => (c.2.2.1, c.2.2.2)) =
        [(.list [.str "No valid agent selected by LLM."], .str "Fallback")]) := by
  refine ⟨⟨?_, ?_, ?_⟩, ⟨?_, ?_, ?_⟩, ⟨?_, ?_⟩⟩ <;>
    simp [mgr_process_message, mgr_body, mgr_requirement_branch,
      mgr_task_execution_branch, create_project_in_fileserver, mgrEffect,
      mgr_git_init, mgr_write, mgr_send, mgr_clarify, mgr_forward,
      pyAsDict, pyAsStr, ask_llm_for_action_result,
      ask_llm_after_task_execution_result, mkAssignDecision,
      mkNewRequirementMsg, mkTaskExecutionMsg, dget, dictGet, pyEqStr, truthy,
      pyStrOf, ha] <;> rfl

/-- Witness for C1's amended statement at `GhostAgent` (non-empty, absent
from any snapshot one cares to pick — here the one without it). -/
theorem mgr_assign_task_ignores_registry_witness :
    ("GhostAgent" : String) ≠ "" ∧
    (mgr_process_message "ManagerAgent" "mid" "ts" 0
        ⟨registrySnapshotNoGhost,
         some (mkAssignDecision "GhostAgent" "automated_testing" "r"),
         Option.none, fun _ => ""⟩
        (mkNewRequirementMsg "FrontendService" "Build a TODO app")).1.sends.map
      (fun s => (s.envelope.type, s.routing_key)) =
      [("TASK_ASSIGNMENT", "GhostAgentQueue")] :=
  ⟨by decide,
    ((mgr_assign_task_ignores_registry registrySnapshotNoGhost (fun _ => "")
      Option.none Option.none "FrontendService" "Build a TODO app" "uploads/p"
      "GhostAgent" "automated_testing" "r" 0 "mid" "ts" (by decide)).1).1⟩

/-- Oracles for the C9 scenario: both LLM calls fail (or return unparseable
output). -/
def mgrOraclesLLMDown : MgrOracles :=
  { agents_and_caps := registrySnapshotNoGhost,
    llm_for_action := Option.none,
    llm_after_task := Option.none,
    readFile := fun _ => "" }

/-- **C9, counterexample.** An oracle-call failure in the after-task path is
not treated as clarification: `ask_llm_after_task_execution`'s fallback
(manageragent.py:274-279) carries `action = "project_completed"`, and the
handler writes a completion note to status.md, posting no clarification. -/
theorem mgr_after_task_oracle_failure_completes :
    dget (ask_llm_after_task_execution_result Option.none) "action" (.str "") =
      .str "project_completed" ∧
    (mgr_process_message "ManagerAgent" "mid" "ts" 0 mgrOraclesLLMDown
        (mkTaskExecutionMsg "DeveloperAgent" "uploads/project_1")).1.clarifications = [] ∧
    (mgr_process_message "ManagerAgent" "mid" "ts" 0 mgrOraclesLLMDown
        (mkTaskExecutionMsg "DeveloperAgent" "uploads/project_1")).1.fileWrites =
      [("uploads/project_1/status.md",
        "\n\nts - Project marked as completed by ManagerAgent (LLM decision).")] ∧
    (mgr_process_message "ManagerAgent" "mid" "ts" 0 mgrOraclesLLMDown
        (mkTaskExecutionMsg "DeveloperAgent" "uploads/project_1")).1.sends = [] ∧
    (mgr_process_message "ManagerAgent" "mid" "ts" 0 mgrOraclesLLMDown
        (mkTaskExecutionMsg "DeveloperAgent" "uploads/project_1")).2 = Option.none :=
  ⟨rfl, rfl, by decide, rfl, rfl⟩

/-- **C9, amended.** An oracle contract violation never stalls or crashes
the workflow, but the fallback depends on the path and the violation.
Initial-requirement path: a call failure / unparseable output is replaced by
a clarification request with the synthetic question "LLM error or invalid
response, please clarify."; a decision with an invalid action, or
`assign_task` without an agent, falls back to a clarification request with
the synthetic question "No valid agent selected by LLM."; but a decision
whose action is missing (defaulted to `clarification`) is forwarded as a
clarification request carrying exactly the oracle's question list — possibly
zero questions, with no synthetic question added. After-task path: no
violation yields a clarification — a call failure or a missing action falls
back to "Project marked as completed by ManagerAgent (LLM decision).", and
an invalid action or `assign_task` without an agent falls through to
"No valid next step from LLM. Marking project completed."
(manageragent.py:579-584). In every case the handler finishes without an
escaping exception. `act` ranges over the invalid actions (any tag other
than the three recognised ones); `cl` over arbitrary question-list values. -/
theorem mgr_oracle_violation_fallback_paths
    (snapshot : Dict) (readF : String → String) (lat lfa : Option Dict)
    (sender req folder cap reason act : String) (cl : PyVal)
    (now : Nat) (mid ts : String)
    (h1 : act ≠ "clarification") (h2 : act ≠ "assign_task")
    (h3 : act ≠ "project_completed") :
    -- initial path, oracle call failure / unparseable output
    ((mgr_process_message "ManagerAgent" mid ts now
        ⟨snapshot, Option.none, lat, readF⟩
        (mkNewRequirementMsg sender req)).1.clarifications =
        [(.str ("project_" ++ toString now), req,
          .list [.str "LLM error or invalid response, please clarify."],
          .str "LLM fallback")] ∧
      (mgr_process_message "ManagerAgent" mid ts now
        ⟨snapshot, Option.none, lat, readF⟩
        (mkNewRequirementMsg sender req)).1.sends = [] ∧
      (mgr_process_message "ManagerAgent" mid ts now
        ⟨snapshot, Option.none, lat, readF⟩
        (mkNewRequirementMsg sender req)).2 = Option.none) ∧
    -- initial path, decision with a missing action: forwarded as a
    -- clarification with the oracle's question list verbatim (no synthetic
    -- question — for cl = list [] the posted request has zero questions)
    ((mgr_process_message "ManagerAgent" mid ts now
        ⟨snapshot, some [("clarifications", cl)], lat, readF⟩
        (mkNewRequirementMsg sender req)).1.clarifications =
        [(.str ("project_" ++ toString now), req, cl, .str "")] ∧
      (mgr_process_message "ManagerAgent" mid ts now
        ⟨snapshot, some [("clarifications", cl)], lat, readF⟩
        (mkNewRequirementMsg sender req)).1.sends = [] ∧
      (mgr_process_message "ManagerAgent" mid ts now
        ⟨snapshot, some [("clarifications", cl)], lat, readF⟩
        (mkNewRequirementMsg sender req)).2 = Option.none) ∧
    -- initial path, invalid action tag
    ((mgr_process_message "ManagerAgent" mid ts now
        ⟨snapshot, some [("action", .str act)], lat, readF⟩
        (mkNewRequirementMsg sender req)).1.clarifications =
        [(.str ("project_" ++ toString now), req,
          .list [.str "No valid agent selected by LLM."], .str "Fallback")] ∧
      (mgr_process_message "ManagerAgent" mid ts now
        ⟨snapshot, some [("action", .str act)], lat, readF⟩
        (mkNewRequirementMsg sender req)).1.sends = [] ∧
      (mgr_process_message "ManagerAgent" mid ts now
        ⟨snapshot, some [("action", .str act)], lat, readF⟩
        (mkNewRequirementMsg sender req)).2 = Option.none) ∧
    -- initial path, assign_task with an empty agent
    ((mgr_process_message "ManagerAgent" mid ts now
        ⟨snapshot, some (mkAssignDecision "" cap reason), lat, readF⟩
        (mkNewRequirementMsg sender req)).1.clarifications =
        [(.str ("project_" ++ toString now), req,
          .list [.str "No valid agent selected by LLM."], .str "Fallback")] ∧
      (mgr_process_message "ManagerAgent" mid ts now
        ⟨snapshot, some (mkAssignDecision "" cap reason), lat, readF⟩
        (mkNewRequirementMsg sender req)).1.sends = [] ∧
      (mgr_process_message "ManagerAgent" mid ts now
        ⟨snapshot, some (mkAssignDecision "" cap reason), lat, readF⟩
        (mkNewRequirementMsg sender req)).2 = Option.none) ∧
    -- after-task path, oracle call failure / unparseable output
    ((mgr_process_message "ManagerAgent" mid ts now
        ⟨snapshot, lfa, Option.none, readF⟩
        (mkTaskExecutionMsg sender folder)).1.clarifications = [] ∧
      (mgr_process_message "ManagerAgent" mid ts now
        ⟨snapshot, lfa, Option.none, readF⟩
        (mkTaskExecutionMsg sender folder)).1.sends = [] ∧
      (mgr_process_message "ManagerAgent" mid ts now
        ⟨snapshot, lfa, Option.none, readF⟩
        (mkTaskExecutionMsg sender folder)).1.fileWrites =
        [(os_path_join folder "status.md",
          readF (os_path_join folder "status.md") ++ "\n\n" ++ ts ++
            " - Project marked as completed by ManagerAgent (LLM decision).")] ∧
      (mgr_process_message "ManagerAgent" mid ts now
        ⟨snapshot, lfa, Option.none, readF⟩
        (mkTaskExecutionMsg sender folder)).2 = Option.none) ∧
    -- after-task path, decision with a missing action: completed by default
    ((mgr_process_message "ManagerAgent" mid ts now
        ⟨snapshot, lfa, some [("clarifications", cl)], readF⟩
        (mkTaskExecutionMsg sender folder)).1.clarifications = [] ∧
      (mgr_process_message "ManagerAgent" mid ts now
        ⟨snapshot, lfa, some [("clarifications", cl)], readF⟩
        (mkTaskExecutionMsg sender folder)).1.sends = [] ∧
      (mgr_process_message "ManagerAgent" mid ts now
        ⟨snapshot, lfa, some [("clarifications", cl)], readF⟩
        (mkTaskExecutionMsg sender folder)).1.fileWrites =
        [(os_path_join folder "status.md",
          readF (os_path_join folder "status.md") ++ "\n\n" ++ ts ++
            " - Project marked as completed by ManagerAgent (LLM decision).")] ∧
      (mgr_process_message "ManagerAgent" mid ts now
        ⟨snapshot, lfa, some [("clarifications", cl)], readF⟩
        (mkTaskExecutionMsg sender folder)).2 = Option.none) ∧
    -- after-task path, invalid action tag: lines 579-584
    ((mgr_process_message "ManagerAgent" mid ts now
        ⟨snapshot, lfa, some [("action", .str act)], readF⟩
        (mkTaskExecutionMsg sender folder)).1.clarifications = [] ∧
      (mgr_process_message "ManagerAgent" mid ts now
        ⟨snapshot, lfa, some [("action", .str act)], readF⟩
        (mkTaskExecutionMsg sender folder)).1.sends = [] ∧
      (mgr_process_message "ManagerAgent" mid ts now
        ⟨snapshot, lfa, some [("action", .str act)], readF⟩
        (mkTaskExecutionMsg sender folder)).1.fileWrites =
        [(os_path_join folder "status.md",
          readF (os_path_join folder "status.md") ++ "\n\n" ++ ts ++
            " - No valid next step from LLM. Marking project completed.")] ∧
      (mgr_process_message "ManagerAgent" mid ts now
        ⟨snapshot, lfa, some [("action", .str act)], readF⟩
        (mkTaskExecutionMsg sender folder)).2 = Option.none) ∧
    -- after-task path, assign_task with an empty agent: lines 579-584
    ((mgr_process_message "ManagerAgent" mid ts now
        ⟨snapshot, lfa, some (mkAssignDecision "" cap reason), readF⟩
        (mkTaskExecutionMsg sender folder)).1.clarifications = [] ∧
      (mgr_process_message "ManagerAgent" mid ts now
        ⟨snapshot, lfa, some (mkAssignDecision "" cap reason), readF⟩
        (mkTaskExecutionMsg sender folder)).1.sends = [] ∧
      (mgr_process_message "ManagerAgent" mid ts now
        ⟨snapshot, lfa, some (mkAssignDecision "" cap reason), readF⟩
        (mkTaskExecutionMsg sender folder)).1.fileWrites =
        [(os_path_join folder "status.md",
          readF (os_path_join folder "status.md") ++ "\n\n" ++ ts ++
            " - No valid next step from LLM. Marking project completed.")] ∧
      (mgr_process_message "ManagerAgent" mid ts now
        ⟨snapshot, lfa, some (mkAssignDecision "" cap reason), readF⟩
        (mkTaskExecutionMsg sender folder)).2 = Option.none) := by
  refine ⟨⟨?_, ?_, ?_⟩, ⟨?_, ?_, ?_⟩, ⟨?_, ?_, ?_⟩, ⟨?_, ?_, ?_⟩,
    ⟨?_, ?_, ?_, ?_⟩, ⟨?_, ?_, ?_, ?_⟩, ⟨?_, ?_, ?_, ?_⟩, ⟨?_, ?_, ?_, ?_⟩⟩ <;>
    simp [mgr_process_message, mgr_body, mgr_requirement_branch,
      mgr_task_execution_branch, create_project_in_fileserver, mgrEffect,
      mgr_git_init, mgr_write, mgr_send, mgr_clarify, mgr_forward,
      pyAsDict, pyAsStr, ask_llm_for_action_result,
      ask_llm_after_task_execution_result, mkAssignDecision,
      mkNewRequirementMsg, mkTaskExecutionMsg, dget, dictGet, pyEqStr, truthy,
      pyStrOf, h1, h2, h3] <;> rfl

/-- Witness for C9's amended statement at the invalid action tag `"retry"`
and the empty question list: the initial path forwards the zero-question
clarification verbatim (no synthetic question), and the after-task path
writes the "No valid next step" completion note. -/
theorem mgr_oracle_violation_fallback_paths_witness :
    ("retry" : String) ≠ "clarification" ∧
    ("retry" : String) ≠ "assign_task" ∧
    ("retry" : String) ≠ "project_completed" ∧
    (mgr_process_message "ManagerAgent" "mid" "ts" 0
        ⟨registrySnapshotNoGhost, some [("clarifications", PyVal.list [])],
         Option.none, fun _ => ""⟩
        (mkNewRequirementMsg "FrontendService" "Build a TODO app")).1.clarifications =
      [(.str ("project_" ++ toString 0), "Build a TODO app", PyVal.list [], .str "")] ∧
    (mgr_process_message "ManagerAgent" "mid" "ts" 0
        ⟨registrySnapshotNoGhost, Option.none, some [("action", .str "retry")],
         fun _ => ""⟩
        (mkTaskExecutionMsg "DeveloperAgent" "uploads/project_1")).1.fileWrites =
      [(os_path_join "uploads/project_1" "status.md",
        "" ++ "\n\n" ++ "ts" ++
          " - No valid next step from LLM. Marking project completed.")] := by
  have h := mgr_oracle_violation_fallback_paths registrySnapshotNoGhost
    (fun _ => "") Option.none Option.none "FrontendService" "Build a TODO app"
    "uploads/project_1" "c" "r" "retry" (PyVal.list []) 0 "mid" "ts"
    (by decide) (by decide) (by decide)
  exact ⟨by decide, by decide, by decide, h.2.1.1, h.2.2.2.2.2.2.1.2.2.1⟩

end DevSuite
